import Mathlib

/-!
Verification development for the tripreview scraping service.

Shallow embedding of:
- the Persistence Gateway (`ScraperService.saveReview` and the save loop of
  `ScraperService.scrapeByPortal`, src/server/src/services/scraper.js),
- the newest-first cutoff early-exit of the Naver adapter
  (`scrapeNaverMap`, scraper.js lines 639-660 and 1153-1162),
- the Retry Executor (`runWithRetry` and `isLikelyPlaywrightFatal`) and the
  Job Orchestrator (`JobService.runScrapingJob` / `stopJob`), from the
  jobService module (src/unnamed/part_007, lines 343-792).

Database effects (INSERT .. ON CONFLICT DO NOTHING, UPDATE) are modelled as
pure state transitions on explicit row lists; the store's conflict resolution
on the dedup key is modelled by key lookup in the row list.  DB queries are
assumed not to fail at the transport level (such failures are caught and
logged by the code and do not alter control flow, except for the missing-pool
guard `requirePool`, which is modelled).  JavaScript numbers are modelled by
ℚ, calendar dates by explicit year/month/day triples resp. epoch-day
integers, and asynchronous interleaving by the points at which the code polls
its cancellation flag (the flag is only ever read at those polls).
-/

namespace TripReview

/-! ## JS string primitives

`String.trim` / `String.toLower` equivalents defined structurally on the
character list (kernel-computable). -/

/-- `s.trim()`: drop leading and trailing whitespace. -/
def jsTrim (s : String) : String :=
  String.mk
    (((s.toList.dropWhile Char.isWhitespace).reverse.dropWhile
        Char.isWhitespace).reverse)

/-- `s.toLowerCase()` (ASCII range, which covers the fatal signatures). -/
def jsToLower (s : String) : String :=
  String.mk (s.toList.map Char.toLower)

/-! ## Calendar dates -/

/-- A calendar day (year, month, day), as produced by the JS `Date` parser
for `YYYY-MM-DD` strings. -/
structure Date3 where
  y : Nat
  m : Nat
  d : Nat
deriving DecidableEq, Repr

def isLeapYear (y : Nat) : Bool :=
  (y % 4 == 0 && y % 100 != 0) || (y % 400 == 0)

def daysInMonth (y m : Nat) : Nat :=
  if m == 2 then (if isLeapYear y then 29 else 28)
  else if m == 4 || m == 6 || m == 9 || m == 11 then 30
  else 31

/-- Validity of a `YYYY-MM-DD` date as checked by `new Date(t)` on an ISO
date string (the ISO parser rejects out-of-range months and days). -/
def jsDateValidYMD (dt : Date3) : Bool :=
  1 ≤ dt.m && dt.m ≤ 12 && 1 ≤ dt.d && dt.d ≤ daysInMonth dt.y dt.m

/-- Epoch-day number of a civil date (proleptic Gregorian), used to compare
calendar days the way JS compares day-granular `Date` values. -/
def daysFromCivil (y m d : Int) : Int :=
  let y1 : Int := if m ≤ 2 then y - 1 else y
  let era : Int := (if 0 ≤ y1 then y1 else y1 - 399) / 400
  let yoe : Int := y1 - era * 400
  let mp : Int := if 2 < m then m - 3 else m + 9
  let doy : Int := (153 * mp + 2) / 5 + d - 1
  let doe : Int := yoe * 365 + yoe / 4 - yoe / 100 + doy
  era * 146097 + doe - 719468

def date3ToDays (dt : Date3) : Int :=
  daysFromCivil (Int.ofNat dt.y) (Int.ofNat dt.m) (Int.ofNat dt.d)

def padZeros (n width : Nat) : String :=
  let s := toString n
  String.mk (List.replicate (width - s.length) '0') ++ s

/-- `d.toISOString().split('T')[0]` for a day-granular date. -/
def toIsoDateStr (dt : Date3) : String :=
  padZeros dt.y 4 ++ "-" ++ padZeros dt.m 2 ++ "-" ++ padZeros dt.d 2

def digitVal (c : Char) : Nat := c.toNat - '0'.toNat

/-- Parse of the regex `^(\d{4})-(\d{2})-(\d{2})$` used by
`normalizeDateStr` in `saveReview` (scraper.js lines 132-142). -/
def parseYMD (t : String) : Option Date3 :=
  match t.toList with
  | [y1, y2, y3, y4, h1, m1, m2, h2, d1, d2] =>
    if y1.isDigit && y2.isDigit && y3.isDigit && y4.isDigit &&
        h1 == '-' && m1.isDigit && m2.isDigit && h2 == '-' &&
        d1.isDigit && d2.isDigit then
      some ⟨digitVal y1 * 1000 + digitVal y2 * 100 + digitVal y3 * 10 + digitVal y4,
            digitVal m1 * 10 + digitVal m2,
            digitVal d1 * 10 + digitVal d2⟩
    else none
  | _ => none

/-- `normalizeDateStr` from `saveReview` (scraper.js lines 132-142): trim,
require strict `YYYY-MM-DD`, require `new Date(t)` to be valid, return the
trimmed string. -/
def normalizeDateStr (s : String) : Option String :=
  let t := jsTrim s
  if t.isEmpty then none
  else
    match parseYMD t with
    | none => none
    | some dt => if jsDateValidYMD dt then some t else none

/-! ## Normalizer: rating clamp -/

/-- The `safeRating` computation of `saveReview` (scraper.js lines 164-175):
`null`/`undefined` pass through as null; `NaN` and negative values become
null; values ≥ 10 (and any value above 9.99) are capped at 9.99 for the
`NUMERIC(3,2)` column.  JS numbers are modelled by ℚ; a `NaN` produced by
`parseFloat` of a non-numeric input is modelled by the `none` input. -/
def safeRating (rating : Option ℚ) : Option ℚ :=
  match rating with
  | none => none
  | some v =>
    if v < 0 then none
    else if 10 ≤ v then some (999 / 100)
    else if 999 / 100 < v then some (999 / 100)
    else some v

/-! ## Persistence Gateway: saveReview -/

/-- The `reviewDate` argument of `saveReview`: a JS `Date` object (possibly
an Invalid Date, modelled `none`), a string, or any other non-null value
defensively coerced through `new Date(..)` (scraper.js lines 144-154). -/
inductive JsDateVal
  | dateObj (valid : Option Date3)
  | strVal (s : String)
  | otherVal (coerced : Option Date3)
deriving DecidableEq, Repr

/-- Input record of `saveReview`.  The remaining columns
(visit/review keywords, emotion, revisit flag, n_* analysis fields, title,
additional info) are stored verbatim and do not influence the dedup key, the
date normalization or the rating clamp, so they are omitted from the row
model. -/
structure ReviewData where
  portalUrl : String
  companyName : String
  reviewDate : Option JsDateVal
  content : Option String
  rating : Option ℚ
  nickname : String
deriving DecidableEq, Repr

/-- A stored `reviews` row (the columns relevant to the claims). -/
structure ReviewRow where
  portalUrl : String
  companyName : String
  reviewDate : String
  content : Option String
  rating : Option ℚ
  nickname : String
deriving DecidableEq, Repr

/-- The dedup key `(company_name, review_date, nickname, portal_url)` of the
unique constraint targeted by `ON CONFLICT .. DO NOTHING`. -/
def rowKey (row : ReviewRow) : String × String × String × String :=
  (row.companyName, row.reviewDate, row.nickname, row.portalUrl)

/-- The `reviewDateStr` computation of `saveReview` (scraper.js lines
129-154): a valid `Date` object is serialized to `YYYY-MM-DD`; a string goes
through `normalizeDateStr`; any other non-null value is coerced via
`new Date(..)`; everything else yields null. -/
def reviewDateStrOf (r : ReviewData) : Option String :=
  match r.reviewDate with
  | none => none
  | some (.dateObj (some dt)) => some (toIsoDateStr dt)
  | some (.dateObj none) => none
  | some (.strVal s) => normalizeDateStr s
  | some (.otherVal (some dt)) => some (toIsoDateStr dt)
  | some (.otherVal none) => none

/-- The dedup key a record would be stored under, when its date is valid. -/
def keyOf (r : ReviewData) : Option (String × String × String × String) :=
  (reviewDateStrOf r).map fun ds => (r.companyName, ds, r.nickname, r.portalUrl)

/-- Outcome of one `saveReview` call.  The JS function returns `true` for a
fresh insert and `false` both for the conflict/duplicate path (scraper.js
line 227) and for the invalid-date skip (line 161); the distinct return
sites are kept distinct here. -/
inductive SaveOutcome
  | inserted
  | duplicate
  | skippedInvalidDate
deriving DecidableEq, Repr

/-- The JS boolean actually returned by `saveReview` for each outcome. -/
def SaveOutcome.toBool : SaveOutcome → Bool
  | .inserted => true
  | _ => false

/-- `ScraperService.saveReview` (scraper.js lines 105-285) against a store
modelled as a row list.  `INSERT .. ON CONFLICT (company_name, review_date,
nickname, portal_url) DO NOTHING` inserts exactly when no row with the dedup
key exists; with a consistent store, `rowCount = 0` coincides with the
follow-up duplicate check finding a row, so the defensive
re-insert branch of lines 229-269 is unreachable and not modelled. -/
def saveReview (db : List ReviewRow) (r : ReviewData) :
    SaveOutcome × List ReviewRow :=
  match reviewDateStrOf r with
  | none => (.skippedInvalidDate, db)
  | some ds =>
    if db.any fun row =>
        decide (rowKey row = (r.companyName, ds, r.nickname, r.portalUrl)) then
      (.duplicate, db)
    else
      (.inserted, db ++ [{ portalUrl := r.portalUrl,
                           companyName := r.companyName,
                           reviewDate := ds,
                           content := r.content,
                           rating := safeRating r.rating,
                           nickname := r.nickname }])

/-- Number of stored rows carrying a given dedup key. -/
def countKey (db : List ReviewRow) (k : String × String × String × String) :
    Nat :=
  (db.filter fun row => decide (rowKey row = k)).length

/-! ## Persistence Gateway: the scrapeByPortal save loop -/

/-- A raw candidate record as seen by the save loop of `scrapeByPortal`
(scraper.js lines 5497-5564).  `parsedDate` is the result of the date
normalization block of lines 5513-5546 (strict `YYYY-MM-DD` via
`normalizeDateStr`, else the environment-dependent `new Date(String(..))`
fallback), supplied as data.  `reviewKeywordArr` is the value of
`review_keyword` when it is an array (the `Array.isArray` test fails on
strings and null). -/
structure RawReview where
  content : Option String
  rating : Option ℚ
  visitType : Option String
  visitKeyword : Option String
  reviewKeywordArr : Option (List String)
  nickname : String
  parsedDate : Option Date3
deriving DecidableEq, Repr

/-- `ratingValue` of the save loop (line 5499): a non-number rating is
coerced, null/undefined become 0. -/
def ratingValue (r : RawReview) : ℚ := r.rating.getD 0

/-- The JS test `x && String(x).trim().length > 0` on an optional string. -/
def strSignal (o : Option String) : Bool :=
  match o with
  | none => false
  | some s => !s.isEmpty && !(jsTrim s).isEmpty

/-- `hasAnySignal` (scraper.js lines 5500-5505): nonempty trimmed content,
positive rating, or a visit-type / visit-keyword / review-keyword value.
The nickname is not consulted. -/
def hasAnySignal (r : RawReview) : Bool :=
  !(jsTrim (r.content.getD "")).isEmpty ||
  decide (0 < ratingValue r) ||
  strSignal r.visitType ||
  strSignal r.visitKeyword ||
  (match r.reviewKeywordArr with
   | some l => decide (0 < l.length)
   | none => false)

/-- How the save loop of `scrapeByPortal` disposes of one record
(lines 5497-5564): records with no signal are skipped as empty, then records
without a parseable date are skipped, then the date filter drops old
records, and the rest reach `saveReview`. -/
inductive SaveLoopStep
  | skippedEmpty
  | skippedNoDate
  | filteredOut
  | attemptSave
deriving DecidableEq, Repr

/-- One iteration of the save loop of `scrapeByPortal`
(scraper.js lines 5497-5564); `filterDate` is the epoch-day cutoff computed
from the date filter (lines 5456-5465), `none` for `all`. -/
def classifyReviewForSave (filterDate : Option Int) (r : RawReview) :
    SaveLoopStep :=
  if !hasAnySignal r then .skippedEmpty
  else
    match r.parsedDate with
    | none => .skippedNoDate
    | some dt =>
      match filterDate with
      | some fd => if date3ToDays dt < fd then .filteredOut else .attemptSave
      | none => .attemptSave

/-! ## Source Adapter cutoff (scrapeNaverMap) -/

/-- The `dateFilter` job option. -/
inductive DateFilter
  | all
  | week
  | twoWeeks
deriving DecidableEq, Repr

/-- The cutoff (`filterDate`) computation of `scrapeNaverMap`
(scraper.js lines 639-660): 7 days before now for `week`, 14 for
`twoWeeks`, no cutoff for `all`.  `today` and the cutoff are epoch days. -/
def naverCutoff (df : DateFilter) (today : Int) : Option Int :=
  match df with
  | .week => some (today - 7)
  | .twoWeeks => some (today - 14)
  | .all => none

/-- A candidate record of the newest-first Naver sequence, reduced to its
extracted review date (`none` when date extraction failed). -/
structure NaverItem where
  date : Option Int
deriving DecidableEq, Repr

/-- The per-record control flow of the `scrapeNaverMap` extraction loop
(scraper.js lines 1118-1162), flattened over pagination: a dateless record
is persisted under today's date in immediate-save mode and skipped
otherwise; a record strictly older than the cutoff sets `shouldStop` and
breaks; every other record is persisted.  Returns the dates of the
yielded/persisted records and the `shouldStop` flag. -/
def naverCollect (saveImmediately : Bool) (df : DateFilter) (today : Int) :
    List NaverItem → List Int × Bool
  | [] => ([], false)
  | item :: rest =>
    let dateUsed : Option Int :=
      match item.date with
      | some d => some d
      | none => if saveImmediately then some today else none
    match dateUsed with
    | none => naverCollect saveImmediately df today rest
    | some d =>
      match naverCutoff df today with
      | some fd =>
        if d < fd then ([], true)
        else
          let r := naverCollect saveImmediately df today rest
          (d :: r.1, r.2)
      | none =>
        let r := naverCollect saveImmediately df today rest
        (d :: r.1, r.2)

/-! ## Errors and Retry Executor -/

/-- A thrown JS `Error`, as far as the orchestrator inspects it
(`error?.name`, `error?.message`). -/
structure JsError where
  name : String
  message : String
deriving DecidableEq, Repr

def jobCancelledMsg : String := "사용자에 의해 작업이 중지되었습니다."

/-- The error thrown by `ensureNotCancelled` (part_007 lines 367-373):
`name` is set to `JobCancelledError`. -/
def jobCancelledError : JsError := ⟨"JobCancelledError", jobCancelledMsg⟩

def alreadyRunningError : JsError := ⟨"Error", "이미 실행 중인 작업이 있습니다."⟩

def noActiveJobError : JsError := ⟨"Error", "실행 중인 작업이 없습니다."⟩

def poolMissingError : JsError :=
  ⟨"Error", "DATABASE_URL이 설정되지 않아 작업(DB 저장/조회)을 수행할 수 없습니다."⟩

def charsPrefix : List Char → List Char → Bool
  | [], _ => true
  | _ :: _, [] => false
  | a :: as, b :: bs => a == b && charsPrefix as bs

def charsContains : List Char → List Char → Bool
  | [], needle => needle.isEmpty
  | h :: t, needle => charsPrefix needle (h :: t) || charsContains t needle

/-- Case-insensitive substring test: `message.toLowerCase().includes(sig)`
(the signatures are already lower case). -/
def includesSub (hay needle : String) : Bool :=
  charsContains hay.toList needle.toList

/-- `isLikelyPlaywrightFatal` (part_007 lines 557-568): the fixed signature
set that classifies an extraction error as fatal to the automation-driver
session. -/
def isLikelyPlaywrightFatal (message : String) : Bool :=
  let m := jsToLower message
  includesSub m "target closed" ||
  includesSub m "browser has been closed" ||
  includesSub m "page has been closed" ||
  includesSub m "protocol error" ||
  includesSub m "execution context was destroyed" ||
  includesSub m "cannot find context" ||
  includesSub m "navigation failed because browser has disconnected"

/-- Progress phases written by `setProgress`. -/
inductive ProgressPhase
  | starting
  | running
  | retrying
  | failed
  | done
  | completedPhase
  | failedPhase
deriving DecidableEq, Repr

/-- Observable events of one `runWithRetry` execution, in program order. -/
inductive REvent
  | checkCancel (attempt : Nat)
  | progressSet (attempt : Nat) (phase : ProgressPhase)
  | invoke (attempt : Nat)
  | logFatalRestart (attempt : Nat) (message : String)
  | closeBrowser (attempt : Nat)
  | reinitBrowser (attempt : Nat) (ok : Bool)
  | logReinitFail (attempt : Nat)
  | backoffSleep (ms : Nat)
deriving DecidableEq, Repr

/-- Environment of one (target, portal) extraction: the outcome of the
wrapped `fn()` on each attempt (the saved-review count on success, the error
message on failure), and whether `scraper.init()` fails when the browser is
recreated after a fatal error on that attempt. -/
structure RetryBehavior where
  fnResult : Nat → Except String Nat
  reinitFails : Nat → Bool

/-- Whether the `cancelRequested` flag is observed set at poll number `k`:
`cancelAt = some t` means the flag-setting `stopJob` call lands before the
`t`-th poll of the run (polls are numbered from 1); `none` means `stopJob`
is never called during the run.  The flag is monotone: every poll at or
after `t` observes it. -/
def pollSees (cancelAt : Option Nat) (k : Nat) : Bool :=
  match cancelAt with
  | none => false
  | some t => t ≤ k

/-- The browser-recreation block run after a failed attempt
(part_007 lines 600-612): on a fatal classification, log, close the browser
(close failures are swallowed), re-init it, and log a re-init failure
without rethrowing; on a transient classification, nothing. -/
def fatalRecoveryEvents (beh : RetryBehavior) (attempt : Nat) (m : String) :
    List REvent :=
  if isLikelyPlaywrightFatal m then
    [REvent.logFatalRestart attempt m, .closeBrowser attempt,
     .reinitBrowser attempt (!beh.reinitFails attempt)] ++
    (if beh.reinitFails attempt then [REvent.logReinitFail attempt] else [])
  else []

/-- The attempt loop of `runWithRetry` (part_007 lines 577-620), from a given
attempt with the given fuel (`fuel + attempt = maxAttempts + 1 = 4` at every
reachable call) and poll counter.  Each attempt first polls the cancellation
flag (`ensureNotCancelled`), then sets progress and invokes `fn`; on
failure it sets progress to `retrying` (or `failed` on the last attempt),
runs the fatal-recovery block, and either rethrows (last attempt) or sleeps
the fixed backoff (2s after attempt 1, 5s after) and continues.  Returns the
event trace, the outcome, and the new poll counter.  The fuel-0 case is
unreachable from `runWithRetry` (the last attempt always returns or
throws). -/
def retryGo (beh : RetryBehavior) (cancelAt : Option Nat) :
    Nat → Nat → Nat → List REvent × Except JsError Nat × Nat
  | 0, _, k => ([], .error ⟨"Error", "unreachable"⟩, k)
  | fuel + 1, attempt, k =>
    let k1 := k + 1
    if pollSees cancelAt k1 then
      ([.checkCancel attempt], .error jobCancelledError, k1)
    else
      let head := [REvent.checkCancel attempt,
                   .progressSet attempt .running, .invoke attempt]
      match beh.fnResult attempt with
      | .ok v => (head, .ok v, k1)
      | .error m =>
        let isLast : Bool := fuel == 0
        let tail :=
          [REvent.progressSet attempt (if isLast then .failed else .retrying)] ++
          fatalRecoveryEvents beh attempt m
        if isLast then (head ++ tail, .error ⟨"Error", m⟩, k1)
        else
          let rest := retryGo beh cancelAt fuel (attempt + 1) k1
          (head ++ tail ++
             [REvent.backoffSleep (if attempt == 1 then 2000 else 5000)] ++
             rest.1,
           rest.2.1, rest.2.2)

/-- `runWithRetry` (part_007 lines 577-620): `maxAttempts = 3`, starting at
attempt 1 with the current poll counter `k`. -/
def runWithRetry (beh : RetryBehavior) (cancelAt : Option Nat) (k : Nat) :
    List REvent × Except JsError Nat × Nat :=
  retryGo beh cancelAt 3 1 k

def isInvoke : REvent → Bool
  | .invoke _ => true
  | _ => false

def isInvokeOrSleep : REvent → Bool
  | .invoke _ => true
  | .backoffSleep _ => true
  | _ => false

/-! ## Job Orchestrator -/

/-- The portals iterated per company, in program order. -/
inductive Portal
  | naver
  | kakao
  | yanolja
  | agoda
  | google
deriving DecidableEq, Repr

/-- A `companies` row (the columns the orchestrator's control flow reads). -/
structure Company where
  companyName : String
  agodaUrl : Option String
deriving DecidableEq, Repr

/-- JS truthiness of a nullable string column. -/
def jsTruthyStr (o : Option String) : Bool :=
  match o with
  | none => false
  | some s => !s.isEmpty

/-- The portal sequence of the company loop (part_007 lines 627-731):
naver, kakao, yanolja, agoda only when `agoda_url` is set, then google. -/
def portalsFor (c : Company) : List Portal :=
  [.naver, .kakao, .yanolja] ++
  (if jsTruthyStr c.agodaUrl then [.agoda] else []) ++ [.google]

inductive JobStatus
  | pending
  | running
  | completed
  | failed
  | stopped
deriving DecidableEq, Repr

/-- Entries appended to the job's bounded `error_message` log by
`appendJobError`, kept structured (the JS formats them into one string). -/
inductive LogEntry
  | fatalRestart (portal : Portal) (companyLabel : String) (message : String)
  | reinitFail (portal : Portal) (companyLabel : String)
  | portalFail (portal : Portal) (companyLabel : String) (message : String)
  | stopRequested
  | jobFail (message : String)
deriving DecidableEq, Repr

/-- In-memory `JobService` state (part_007 lines 349-354). -/
structure SvcState where
  isRunning : Bool
  currentJob : Option Nat
  cancelRequested : Bool
  hasProgress : Bool
deriving DecidableEq, Repr

/-- Environment of one `runScrapingJob` call: whether the DB pool exists,
whether `scraper.init()` fails at job start, the `companies` table, the
`companyName` filter argument, the extraction behavior of each
(company index, portal) pair and the cancellation schedule (see
`pollSees`). -/
structure JobEnv where
  poolAvailable : Bool
  launchFails : Option String
  companies : List Company
  companyFilter : Option String
  behavior : Nat → Portal → RetryBehavior
  cancelAt : Option Nat

/-- The final job row (status, `completed_at` stamp, accumulated
`error_message` log). -/
structure JobRow where
  status : JobStatus
  completedAt : Bool
  errorLog : List LogEntry
deriving DecidableEq, Repr

/-- Result of one `runScrapingJob` call: the final in-memory service state,
the job row if one was created, the rejection of the returned promise if it
threw before creating the job, and the in-memory `successCount` /
`errorCount` accumulators. -/
structure RunOutcome where
  svc : SvcState
  job : Option JobRow
  thrown : Option JsError
  successCount : Nat
  errorCount : Nat
deriving DecidableEq, Repr

/-- Accumulator threaded through the company/portal loops. -/
structure JobAcc where
  pollCount : Nat
  successCount : Nat
  errorCount : Nat
  log : List LogEntry
deriving DecidableEq, Repr

/-- The `appendJobError` calls made from inside `runWithRetry`
(fatal-restart notice, re-init failure notice), recovered from the retry
trace. -/
def retryLogEntries (portal : Portal) (label : String)
    (trace : List REvent) : List LogEntry :=
  trace.filterMap fun e =>
    match e with
    | .logFatalRestart _ m => some (.fatalRestart portal label m)
    | .logReinitFail _ => some (.reinitFail portal label)
    | _ => none

/-- One per-portal block of the company loop (part_007 lines 627-651 and
analogous): run `runWithRetry`; on success add the returned count to
`successCount`; on any error (including a swallowed `JobCancelledError`)
increment `errorCount` and append a portal-failure log entry.  The block
never rethrows. -/
def runPortal (env : JobEnv) (ci : Nat) (portal : Portal) (label : String)
    (acc : JobAcc) : JobAcc :=
  let r := runWithRetry (env.behavior ci portal) env.cancelAt acc.pollCount
  match r.2.1 with
  | .ok v =>
    { acc with pollCount := r.2.2,
               successCount := acc.successCount + v,
               log := acc.log ++ retryLogEntries portal label r.1 }
  | .error e =>
    { acc with pollCount := r.2.2,
               errorCount := acc.errorCount + 1,
               log := acc.log ++ retryLogEntries portal label r.1 ++
                      [.portalFail portal label e.message] }

def runPortalList (env : JobEnv) (ci : Nat) (label : String) :
    List Portal → JobAcc → JobAcc
  | [], acc => acc
  | p :: rest, acc =>
    runPortalList env ci label rest (runPortal env ci p label acc)

/-- The `companyLabel` string of the company loop. -/
def companyLabel (c : Company) : String :=
  "company=\"" ++ c.companyName ++ "\""

/-- The company loop (part_007 lines 622-732): each iteration first polls
the cancellation flag (`ensureNotCancelled`, line 623) — a set flag throws
`JobCancelledError` out of the loop — then runs every portal block.
Returns the final accumulator and the escaped error, if any. -/
def runCompanyList (env : JobEnv) :
    List (Nat × Company) → JobAcc → JobAcc × Option JsError
  | [], acc => (acc, none)
  | (ci, c) :: rest, acc =>
    let k1 := acc.pollCount + 1
    if pollSees env.cancelAt k1 then
      ({ acc with pollCount := k1 }, some jobCancelledError)
    else
      let acc2 := runPortalList env ci (companyLabel c) (portalsFor c)
        { acc with pollCount := k1 }
      runCompanyList env rest acc2

/-- Resolution of the target set (part_007 lines 530-545): a truthy,
nonblank `companyName` selects the matching rows and throws when none
match; otherwise all companies are used. -/
def resolveCompanies (companies : List Company) (filter : Option String) :
    Except JsError (List Company) :=
  match filter with
  | some s =>
    if !s.isEmpty && !(jsTrim s).isEmpty then
      let sel := companies.filter fun c => c.companyName == jsTrim s
      if sel.isEmpty then
        .error ⟨"Error", "기업 \"" ++ jsTrim s ++ "\"을 찾을 수 없습니다."⟩
      else .ok sel
    else .ok companies
  | none => .ok companies

/-- The fully reset service state written by the `finally` block of
`runScrapingJob` (part_007 lines 760-765). -/
def resetSvc : SvcState :=
  { isRunning := false, currentJob := none, cancelRequested := false,
    hasProgress := false }

/-- The top-level catch of `runScrapingJob` (part_007 lines 742-758):
append a `job 실패` log entry, then mark the job `stopped` when the escaped
error is a `JobCancelledError` and `failed` otherwise, stamping
`completed_at`. -/
def catchJobRow (log : List LogEntry) (e : JsError) : JobRow :=
  { status := if e.name == "JobCancelledError" then .stopped else .failed,
    completedAt := true,
    errorLog := log ++ [.jobFail e.message] }

/-- The `try` block of `runScrapingJob` (part_007 lines 522-741): mark the
job running, launch the browser (a launch failure escapes to the catch),
resolve the target set (a `TargetNotFound` escapes), then run the company
loop; an escaped error carries the accumulator state at the moment it was
thrown. -/
def jobTryBody (env : JobEnv) : Except (JsError × JobAcc) JobAcc :=
  match env.launchFails with
  | some m => .error (⟨"Error", m⟩, ⟨0, 0, 0, []⟩)
  | none =>
    match resolveCompanies env.companies env.companyFilter with
    | .error e => .error (e, ⟨0, 0, 0, []⟩)
    | .ok sel =>
      match runCompanyList env sel.enum ⟨0, 0, 0, []⟩ with
      | (acc, none) => .ok acc
      | (acc, some e) => .error (e, acc)

/-- `JobService.runScrapingJob` (part_007 lines 507-768).  The synchronous
prefix checks and sets the running flag before any awaited work (lines
508-513); a missing DB pool then throws before the `try`, leaving the flag
set (lines 514-516 precede the `try`); inside the `try`, browser launch and
target resolution failures reach the catch as non-cancellation errors; the
company loop's escaped `JobCancelledError` reaches it as a cancellation;
with no escaped error the job completes.  The `finally` resets the
in-memory state on every path that entered the `try`. -/
def runScrapingJob (env : JobEnv) (svc : SvcState) : RunOutcome :=
  if svc.isRunning then
    { svc := svc, job := none, thrown := some alreadyRunningError,
      successCount := 0, errorCount := 0 }
  else
    let svc1 : SvcState :=
      { svc with isRunning := true, cancelRequested := false }
    if !env.poolAvailable then
      { svc := svc1, job := none, thrown := some poolMissingError,
        successCount := 0, errorCount := 0 }
    else
      match jobTryBody env with
      | .ok acc =>
        { svc := resetSvc,
          job := some { status := .completed, completedAt := true,
                        errorLog := acc.log },
          thrown := none,
          successCount := acc.successCount, errorCount := acc.errorCount }
      | .error (e, acc) =>
        { svc := resetSvc,
          job := some (catchJobRow acc.log e),
          thrown := none,
          successCount := acc.successCount, errorCount := acc.errorCount }

/-- The synchronous check-and-set prefix of `runScrapingJob` (part_007
lines 508-513).  There is no `await` between the check and the set, so on
the single-threaded event loop the prefix executes atomically; a race of
two `start()` calls is therefore some sequential order of two such
prefixes. -/
def checkAndSetRunning (svc : SvcState) : Except JsError SvcState :=
  if svc.isRunning then .error alreadyRunningError
  else .ok { svc with isRunning := true, cancelRequested := false }

/-- `JobService.stopJob` (part_007 lines 773-782): throws when no job is
running; otherwise only sets the cancellation flag and appends a log entry
to the current job — it does not touch the running flag or interrupt
in-flight work. -/
def stopJob (svc : SvcState) (jobLog : List LogEntry) :
    Except JsError (SvcState × List LogEntry × String) :=
  if !svc.isRunning || svc.currentJob.isNone then .error noActiveJobError
  else
    .ok ({ svc with cancelRequested := true },
         jobLog ++ [.stopRequested], "중지 요청 완료")

/-! ## Derived per-pair quantities (cancellation-free runs) -/

/-- The outcome of one `runWithRetry` execution when no cancellation is ever
observed (by `retryGo_none_shift` it does not depend on the poll counter). -/
def pureOutcome (beh : RetryBehavior) : Except JsError Nat :=
  (retryGo beh none 3 1 0).2.1

/-- The saved-review count a (company, portal) pair adds to `successCount`. -/
def pairGain (beh : RetryBehavior) : Nat :=
  match pureOutcome beh with
  | .ok v => v
  | .error _ => 0

/-- The contribution of a (company, portal) pair to `errorCount`: 1 when its
retried extraction ultimately fails, 0 otherwise. -/
def pairErr (beh : RetryBehavior) : Nat :=
  match pureOutcome beh with
  | .ok _ => 0
  | .error _ => 1

/-- All `error_message` log entries produced by one (company, portal) pair in
a cancellation-free run: the entries appended from inside `runWithRetry`,
followed by the portal-failure entry appended by the per-portal catch when
the pair ultimately fails. -/
def portalPairLog (beh : RetryBehavior) (p : Portal) (label : String) :
    List LogEntry :=
  retryLogEntries p label (retryGo beh none 3 1 0).1 ++
  (match pureOutcome beh with
   | .ok _ => []
   | .error e => [.portalFail p label e.message])

/-- Total `successCount` over a company list with indices. -/
def companiesGain (env : JobEnv) (l : List (Nat × Company)) : Nat :=
  (l.flatMap fun pr => (portalsFor pr.2).map fun p =>
    pairGain (env.behavior pr.1 p)).sum

/-- Total `errorCount` over a company list with indices. -/
def companiesErr (env : JobEnv) (l : List (Nat × Company)) : Nat :=
  (l.flatMap fun pr => (portalsFor pr.2).map fun p =>
    pairErr (env.behavior pr.1 p)).sum

/-- Full `error_message` log over a company list with indices. -/
def companiesLog (env : JobEnv) (l : List (Nat × Company)) : List LogEntry :=
  l.flatMap fun pr => (portalsFor pr.2).flatMap fun p =>
    portalPairLog (env.behavior pr.1 p) p (companyLabel pr.2)

/-! ## Concrete scenarios -/

/-- A run over a single company in which `stopJob` lands after the
company-loop checkpoint (poll 1) and before the first retry-attempt
checkpoint (poll 2): every portal's `runWithRetry` then throws
`JobCancelledError` at the top of its first attempt. -/
def envCancelDuringLastCompany : JobEnv :=
  { poolAvailable := true, launchFails := none,
    companies := [⟨"A", none⟩], companyFilter := none,
    behavior := fun _ _ => ⟨fun _ => .ok 0, fun _ => false⟩,
    cancelAt := some 2 }

/-- A run over two companies and the four unconditional portals in which
exactly the pair (company 0, kakao) always fails and every other pair
saves 2 reviews per extraction. -/
def envOneFailingPair : JobEnv :=
  { poolAvailable := true, launchFails := none,
    companies := [⟨"A", none⟩, ⟨"B", none⟩], companyFilter := none,
    behavior := fun ci p =>
      if ci == 0 && p == Portal.kakao then ⟨fun _ => .error "boom", fun _ => false⟩
      else ⟨fun _ => .ok 2, fun _ => false⟩,
    cancelAt := none }

/-- A trivial cancellation-free run over an empty company table. -/
def envNoCompanies : JobEnv :=
  { poolAvailable := true, launchFails := none,
    companies := [], companyFilter := none,
    behavior := fun _ _ => ⟨fun _ => .ok 0, fun _ => false⟩,
    cancelAt := none }

/-- A single-company run in which the cancellation is already pending at the
first company-loop checkpoint. -/
def envCancelBeforeFirstCompany : JobEnv :=
  { poolAvailable := true, launchFails := none,
    companies := [⟨"A", none⟩], companyFilter := none,
    behavior := fun _ _ => ⟨fun _ => .ok 0, fun _ => false⟩,
    cancelAt := some 1 }

/-- A two-company run in which `stopJob` lands while company "A"'s portals
are being processed (first observed at poll 3, kakao's first retry
checkpoint): company "A"'s remaining portal blocks swallow it as portal
failures, and the company-loop checkpoint of company "B" (poll 6) observes
it and ends the job. -/
def envCancelMidRun : JobEnv :=
  { poolAvailable := true, launchFails := none,
    companies := [⟨"A", none⟩, ⟨"B", none⟩], companyFilter := none,
    behavior := fun _ _ => ⟨fun _ => .ok 0, fun _ => false⟩,
    cancelAt := some 3 }

/-- A service state with a job in flight. -/
def svcBusy : SvcState :=
  { isRunning := true, currentJob := some 1, cancelRequested := false,
    hasProgress := true }

/-- The error log produced when all four unconditional portals of company
"A" observe a pending cancellation at the top of their first retry
attempt. -/
def cancelPortalFailLog : List LogEntry :=
  [.portalFail .naver "company=\"A\"" jobCancelledMsg,
   .portalFail .kakao "company=\"A\"" jobCancelledMsg,
   .portalFail .yanolja "company=\"A\"" jobCancelledMsg,
   .portalFail .google "company=\"A\"" jobCancelledMsg]

/-- An extraction that fails on every attempt with the message "x". -/
def behAllFailX : RetryBehavior := ⟨fun _ => .error "x", fun _ => false⟩

/-- An extraction that fails fatally on attempt 1 (browser target closed,
and the browser re-launch fails too), then succeeds with 5 reviews. -/
def behFatalThenOk : RetryBehavior :=
  ⟨fun n => if n == 1 then .error "Target closed" else .ok 5,
   fun _ => true⟩

/-- A valid review record used for concrete save scenarios. -/
def sampleReview : ReviewData :=
  { portalUrl := "네이버맵", companyName := "호텔A",
    reviewDate := some (.strVal "2026-01-10"),
    content := some "좋아요", rating := some 4, nickname := "n1" }

/-- A record with content but no rating. -/
def contentOnlyReview : RawReview :=
  { content := some "좋은 호텔", rating := none, visitType := none,
    visitKeyword := none, reviewKeywordArr := none,
    nickname := "n", parsedDate := none }

/-- A record whose only distinguishing field is its nickname: empty content,
zero rating, no keyword signals. -/
def nicknameOnlyReview : RawReview :=
  { content := some "", rating := some 0, visitType := none,
    visitKeyword := none, reviewKeywordArr := none,
    nickname := "홍길동", parsedDate := some ⟨2026, 1, 10⟩ }

/-! # Helper lemmas -/

lemma countKey_eq_zero_iff (db : List ReviewRow)
    (k : String × String × String × String) :
    countKey db k = 0 ↔
      (db.any fun row => decide (rowKey row = k)) = false := by
  simp [countKey, List.length_eq_zero, List.filter_eq_nil_iff,
    List.any_eq_true]

lemma filter_fatalRecovery_invokeOrSleep (beh : RetryBehavior) (n : Nat)
    (m : String) :
    (fatalRecoveryEvents beh n m).filter isInvokeOrSleep = [] := by
  unfold fatalRecoveryEvents
  split_ifs <;> simp [isInvokeOrSleep]

lemma countP_fatalRecovery_invoke (beh : RetryBehavior) (n : Nat)
    (m : String) :
    (fatalRecoveryEvents beh n m).countP isInvoke = 0 := by
  unfold fatalRecoveryEvents
  split_ifs <;> simp [isInvoke, List.countP_cons, List.countP_append]

lemma pollSees_none (k : Nat) : pollSees none k = false := rfl

lemma retryGo_step_cancel (beh : RetryBehavior) (cAt : Option Nat)
    (fuel attempt k : Nat) (hc : pollSees cAt (k + 1) = true) :
    retryGo beh cAt (fuel + 1) attempt k =
      ([.checkCancel attempt], .error jobCancelledError, k + 1) := by
  simp only [retryGo, hc, if_true]

lemma retryGo_step_ok (beh : RetryBehavior) (cAt : Option Nat)
    (fuel attempt k : Nat) (hc : pollSees cAt (k + 1) = false)
    (v : Nat) (hm : beh.fnResult attempt = .ok v) :
    retryGo beh cAt (fuel + 1) attempt k =
      ([.checkCancel attempt, .progressSet attempt .running, .invoke attempt],
       .ok v, k + 1) := by
  simp only [retryGo, hc, hm, Bool.false_eq_true, if_false]

lemma retryGo_step_fail (beh : RetryBehavior) (cAt : Option Nat)
    (fuel attempt k : Nat) (hc : pollSees cAt (k + 1) = false)
    (m : String) (hm : beh.fnResult attempt = .error m) :
    retryGo beh cAt (fuel + 2) attempt k =
      ([REvent.checkCancel attempt, .progressSet attempt .running,
        .invoke attempt, .progressSet attempt .retrying] ++
       fatalRecoveryEvents beh attempt m ++
       [REvent.backoffSleep (if attempt == 1 then 2000 else 5000)] ++
       (retryGo beh cAt (fuel + 1) (attempt + 1) (k + 1)).1,
       (retryGo beh cAt (fuel + 1) (attempt + 1) (k + 1)).2.1,
       (retryGo beh cAt (fuel + 1) (attempt + 1) (k + 1)).2.2) := by
  simp only [retryGo, hc, hm, Bool.false_eq_true, if_false]
  simp [Nat.succ_ne_zero, List.append_assoc]

lemma retryGo_step_last_fail (beh : RetryBehavior) (cAt : Option Nat)
    (attempt k : Nat) (hc : pollSees cAt (k + 1) = false)
    (m : String) (hm : beh.fnResult attempt = .error m) :
    retryGo beh cAt 1 attempt k =
      ([REvent.checkCancel attempt, .progressSet attempt .running,
        .invoke attempt, .progressSet attempt .failed] ++
       fatalRecoveryEvents beh attempt m,
       .error ⟨"Error", m⟩, k + 1) := by
  simp only [retryGo, hc, hm, Bool.false_eq_true, if_false]
  simp

lemma retryGo_invoke_le (beh : RetryBehavior) (cAt : Option Nat) :
    ∀ fuel attempt k,
      ((retryGo beh cAt fuel attempt k).1.countP isInvoke) ≤ fuel := by
  intro fuel
  induction fuel with
  | zero =>
    intro attempt k
    simp [retryGo]
  | succ fuel ih =>
    intro attempt k
    by_cases hc : pollSees cAt (k + 1) = true
    · rw [retryGo_step_cancel beh cAt fuel attempt k hc]
      simp [isInvoke, List.countP_cons]
    · rw [Bool.not_eq_true] at hc
      cases hfn : beh.fnResult attempt with
      | ok v =>
        rw [retryGo_step_ok beh cAt fuel attempt k hc v hfn]
        simp [isInvoke, List.countP_cons]
      | error m =>
        cases fuel with
        | zero =>
          rw [retryGo_step_last_fail beh cAt attempt k hc m hfn]
          simp [isInvoke, List.countP_cons, List.countP_append,
            countP_fatalRecovery_invoke]
        | succ fuel =>
          rw [retryGo_step_fail beh cAt fuel attempt k hc m hfn]
          simp only [List.countP_append, List.countP_cons, List.countP_nil,
            isInvoke, countP_fatalRecovery_invoke]
          have := ih (attempt + 1) (k + 1)
          simp [isInvoke] at this ⊢
          omega

/-! # Claim theorems -/

/-- **C8** (rating clamp): the Persistence Gateway's `safeRating`
normalization stores 9.99 for any input ≥ 10 (in particular 12 and 10),
stores 9.99 for input 9.99, stores null for any negative input (in
particular -3), and every stored rating lies in [0, 9.99]; the inserted row
of a `saveReview` call carries exactly the clamped rating. -/
theorem c8_rating_clamp :
    safeRating (some 12) = some (999 / 100) ∧
    safeRating (some 10) = some (999 / 100) ∧
    safeRating (some (999 / 100)) = some (999 / 100) ∧
    safeRating (some (-3)) = none ∧
    (∀ q : ℚ, q < 0 → safeRating (some q) = none) ∧
    (∀ q : ℚ, 10 ≤ q → safeRating (some q) = some (999 / 100)) ∧
    (∀ (o : Option ℚ) (w : ℚ), safeRating o = some w →
      0 ≤ w ∧ w ≤ 999 / 100) ∧
    (∀ (db : List ReviewRow) (r : ReviewData) (ds : String),
      reviewDateStrOf r = some ds →
      countKey db (r.companyName, ds, r.nickname, r.portalUrl) = 0 →
      ∃ row, (saveReview db r).2 = db ++ [row] ∧
        row.rating = safeRating r.rating) := by
  refine ⟨by norm_num [safeRating], by norm_num [safeRating],
    by norm_num [safeRating], by norm_num [safeRating], ?_, ?_, ?_, ?_⟩
  · intro q hq
    simp [safeRating, hq]
  · intro q hq
    have h1 : ¬q < 0 := by linarith
    simp [safeRating, h1, hq]
  · intro o w h
    match o with
    | none => simp [safeRating] at h
    | some v =>
      simp only [safeRating] at h
      by_cases h1 : v < 0
      · rw [if_pos h1] at h
        exact Option.noConfusion h
      · rw [if_neg h1] at h
        by_cases h2 : 10 ≤ v
        · rw [if_pos h2] at h
          injection h with he
          subst he
          norm_num
        · rw [if_neg h2] at h
          by_cases h3 : 999 / 100 < v
          · rw [if_pos h3] at h
            injection h with he
            subst he
            norm_num
          · rw [if_neg h3] at h
            injection h with he
            subst he
            exact ⟨not_lt.mp h1, not_lt.mp h3⟩
  · intro db r ds hds hfresh
    have hany := (countKey_eq_zero_iff db _).mp hfresh
    refine ⟨⟨r.portalUrl, r.companyName, ds, r.content,
      safeRating r.rating, r.nickname⟩, ?_, rfl⟩
    simp [saveReview, hds, hany]

/-- **C8 witness**: the clamp theorem applied at inputs -1 and 11 and at a
concrete insert. -/
theorem c8_rating_clamp_witness :
    safeRating (some (-1)) = none ∧
    safeRating (some 11) = some (999 / 100) ∧
    ∃ row, (saveReview [] sampleReview).2 = [] ++ [row] ∧
      row.rating = safeRating sampleReview.rating := by
  refine ⟨c8_rating_clamp.2.2.2.2.1 (-1) (by norm_num),
    c8_rating_clamp.2.2.2.2.2.1 11 (by norm_num),
    c8_rating_clamp.2.2.2.2.2.2.2 [] sampleReview "2026-01-10" (by decide)
      (by decide)⟩

/-- **C9 counterexample**: the save loop of `scrapeByPortal` classifies a
record with a distinguishing nickname but empty content, zero rating and no
keyword signals as carrying no usable signal and skips it — `hasAnySignal`
never consults the nickname, contradicting the claim that the save path
rejects a record only when it has, among other things, no distinguishing
nickname. -/
theorem c9_nickname_not_consulted :
    classifyReviewForSave none nicknameOnlyReview = .skippedEmpty ∧
    nicknameOnlyReview.nickname = "홍길동" ∧
    nicknameOnlyReview.nickname ≠ "" := by
  refine ⟨by decide, rfl, by decide⟩

/-- **C9** (amended): the save loop rejects a record as carrying no usable
signal exactly when `hasAnySignal` is false — that is, when its content is
empty or whitespace, its rating is not positive, and it carries no
visit-type, visit-keyword or review-keyword value; the nickname is never
consulted (the signal check is invariant under changing it).  A record with
nonempty content but no rating, or with a positive rating but no content,
is accepted as valid. -/
theorem c9_signal_check_amended :
    (∀ (fd : Option Int) (r : RawReview),
      classifyReviewForSave fd r = .skippedEmpty ↔ hasAnySignal r = false) ∧
    (∀ r : RawReview, (jsTrim (r.content.getD "")).isEmpty = false →
      hasAnySignal r = true) ∧
    (∀ r : RawReview, 0 < ratingValue r → hasAnySignal r = true) ∧
    (∀ (r : RawReview) (nick : String),
      hasAnySignal { r with nickname := nick } = hasAnySignal r) := by
  refine ⟨?_, ?_, ?_, ?_⟩
  · intro fd r
    constructor
    · intro hcl
      by_contra hh
      rw [Bool.not_eq_false] at hh
      rcases hp : r.parsedDate with _ | dt
      · simp [classifyReviewForSave, hh, hp] at hcl
      · rcases fd with _ | fdv
        · simp [classifyReviewForSave, hh, hp] at hcl
        · simp only [classifyReviewForSave, hh, hp, Bool.not_true,
            Bool.false_eq_true, if_false] at hcl
          split_ifs at hcl
    · intro h
      simp [classifyReviewForSave, h]
  · intro r h
    simp [hasAnySignal, h]
  · intro r h
    simp [hasAnySignal, h]
  · intro r nick
    rfl

/-- **C9 amended witness**: the amended theorem applied to a concrete
record with content and no rating. -/
theorem c9_signal_check_amended_witness :
    hasAnySignal contentOnlyReview = true :=
  c9_signal_check_amended.2.1 contentOnlyReview (by decide)

/-- **C1** (idempotent upsert): saving two records carrying the same dedup
key (target name, normalized review date, nickname, portal) into a store
with no row under that key inserts exactly one row: the first call reports
`inserted`, the second reports `duplicate` — an outcome distinct from
`inserted` — returns normally (no exception path exists in the model, the
JS catches internally and returns a boolean) and leaves the store
unchanged, with exactly one stored row under the key. -/
theorem c1_idempotent_upsert (db : List ReviewRow) (r r2 : ReviewData)
    (k : String × String × String × String)
    (hk : keyOf r = some k) (hk2 : keyOf r2 = some k)
    (hfresh : countKey db k = 0) :
    (saveReview db r).1 = .inserted ∧
    (saveReview (saveReview db r).2 r2).1 = .duplicate ∧
    (saveReview (saveReview db r).2 r2).2 = (saveReview db r).2 ∧
    countKey (saveReview (saveReview db r).2 r2).2 k = 1 ∧
    SaveOutcome.duplicate ≠ SaveOutcome.inserted := by
  obtain ⟨ds, hds, hkey⟩ :
      ∃ ds, reviewDateStrOf r = some ds ∧
        (r.companyName, ds, r.nickname, r.portalUrl) = k := by
    simpa [keyOf, Option.map_eq_some'] using hk
  obtain ⟨ds2, hds2, hkey2⟩ :
      ∃ ds2, reviewDateStrOf r2 = some ds2 ∧
        (r2.companyName, ds2, r2.nickname, r2.portalUrl) = k := by
    simpa [keyOf, Option.map_eq_some'] using hk2
  have hany := (countKey_eq_zero_iff db _).mp hfresh
  have h1 : saveReview db r =
      (.inserted, db ++
        [(⟨r.portalUrl, r.companyName, ds, r.content,
           safeRating r.rating, r.nickname⟩ : ReviewRow)]) := by
    simp [saveReview, hds, hkey, hany]
  have hrowkey :
      rowKey (⟨r.portalUrl, r.companyName, ds, r.content,
        safeRating r.rating, r.nickname⟩ : ReviewRow) = k := hkey
  have h2 : saveReview (saveReview db r).2 r2 =
      (.duplicate, (saveReview db r).2) := by
    rw [h1]
    simp [saveReview, hds2, hkey2, List.any_append, hany, hrowkey]
  have h0 : (List.filter (fun row => decide (rowKey row = k)) db).length = 0 :=
    hfresh
  refine ⟨by rw [h1], by rw [h2], by rw [h2], ?_, by decide⟩
  rw [h2, h1]
  simp [countKey, List.filter_append, hrowkey, h0]

/-- **C1 witness**: the upsert theorem applied at a concrete record and an
empty store. -/
theorem c1_idempotent_upsert_witness :
    (saveReview [] sampleReview).1 = .inserted ∧
    (saveReview (saveReview [] sampleReview).2 sampleReview).1 = .duplicate ∧
    (saveReview (saveReview [] sampleReview).2 sampleReview).2 =
      (saveReview [] sampleReview).2 ∧
    countKey (saveReview (saveReview [] sampleReview).2 sampleReview).2
      ("호텔A", "2026-01-10", "n1", "네이버맵") = 1 ∧
    SaveOutcome.duplicate ≠ SaveOutcome.inserted :=
  c1_idempotent_upsert [] sampleReview sampleReview
    ("호텔A", "2026-01-10", "n1", "네이버맵") (by decide) (by decide) (by decide)

/-- **C5** (cutoff early-termination): over any all-dated newest-first
record sequence, once a record's date is strictly older than the cutoff the
Naver extraction loop stops — the yielded/persisted records are exactly the
takeWhile-prefix of records not older than the cutoff, and the stop flag
fires exactly when some record is older; in particular for dates
2026-01-15, 2026-01-10, 2026-01-01 under `dateFilter = week` at
now = 2026-01-16 the cutoff is 2026-01-09 and exactly the first two records
are persisted, with extraction stopping before the third. -/
theorem c5_cutoff_early_exit :
    (∀ (si : Bool) (df : DateFilter) (today fd : Int) (ds : List Int),
      naverCutoff df today = some fd →
      naverCollect si df today (ds.map fun d => ⟨some d⟩) =
        (ds.takeWhile fun d => decide (fd ≤ d),
         ds.any fun d => decide (d < fd))) ∧
    naverCutoff .week (daysFromCivil 2026 1 16) =
      some (daysFromCivil 2026 1 9) ∧
    naverCollect true .week (daysFromCivil 2026 1 16)
      [⟨some (daysFromCivil 2026 1 15)⟩, ⟨some (daysFromCivil 2026 1 10)⟩,
       ⟨some (daysFromCivil 2026 1 1)⟩] =
      ([daysFromCivil 2026 1 15, daysFromCivil 2026 1 10], true) := by
  refine ⟨?_, by decide, by decide⟩
  intro si df today fd ds hc
  induction ds with
  | nil => simp [naverCollect]
  | cons d rest ih =>
    by_cases h : d < fd
    · simp [naverCollect, hc, h, not_le.mpr h]
    · simp [naverCollect, hc, h, not_lt.mp h, ih]

/-- **C5 witness**: the early-exit theorem applied to a concrete two-weeks
sequence with cutoff 86. -/
theorem c5_cutoff_early_exit_witness :
    naverCollect false .twoWeeks 100 [⟨some 105⟩, ⟨some 80⟩] = ([105], true) := by
  have h := c5_cutoff_early_exit.1 false .twoWeeks 100 86 [105, 80] (by decide)
  simpa using h

/-- **C3** (retry policy): `runWithRetry` invokes the extraction function at
most 3 times in every environment; in a cancellation-free run, after a
failed attempt 1 it sleeps 2000 ms, after a failed attempt 2 it sleeps
5000 ms, and after a failed final attempt it performs no further backoff and
propagates the error to the caller — the invoke/sleep skeleton of the trace
is exactly `invoke 1, sleep 2000, invoke 2, sleep 5000, invoke 3` when the
first two attempts fail, whatever the third does. -/
theorem c3_retry_policy :
    (∀ (beh : RetryBehavior) (cAt : Option Nat) (k : Nat),
      ((runWithRetry beh cAt k).1.countP isInvoke) ≤ 3) ∧
    (∀ (beh : RetryBehavior) (k : Nat) (m1 m2 m3 : String),
      beh.fnResult 1 = .error m1 → beh.fnResult 2 = .error m2 →
      beh.fnResult 3 = .error m3 →
      (runWithRetry beh none k).1.filter isInvokeOrSleep =
        [.invoke 1, .backoffSleep 2000, .invoke 2, .backoffSleep 5000,
         .invoke 3] ∧
      (runWithRetry beh none k).2.1 = .error ⟨"Error", m3⟩) ∧
    (∀ (beh : RetryBehavior) (k : Nat) (m1 : String) (v : Nat),
      beh.fnResult 1 = .error m1 → beh.fnResult 2 = .ok v →
      (runWithRetry beh none k).1.filter isInvokeOrSleep =
        [.invoke 1, .backoffSleep 2000, .invoke 2] ∧
      (runWithRetry beh none k).2.1 = .ok v) ∧
    (∀ (beh : RetryBehavior) (k : Nat) (m1 m2 : String) (v : Nat),
      beh.fnResult 1 = .error m1 → beh.fnResult 2 = .error m2 →
      beh.fnResult 3 = .ok v →
      (runWithRetry beh none k).1.filter isInvokeOrSleep =
        [.invoke 1, .backoffSleep 2000, .invoke 2, .backoffSleep 5000,
         .invoke 3] ∧
      (runWithRetry beh none k).2.1 = .ok v) := by
  refine ⟨?_, ?_, ?_, ?_⟩
  · intro beh cAt k
    exact retryGo_invoke_le beh cAt 3 1 k
  · intro beh k m1 m2 m3 h1 h2 h3
    rw [runWithRetry,
      retryGo_step_fail beh none 1 1 k (pollSees_none _) m1 h1,
      retryGo_step_fail beh none 0 2 (k + 1) (pollSees_none _) m2 h2,
      retryGo_step_last_fail beh none 3 (k + 2) (pollSees_none _) m3 h3]
    constructor
    · simp [List.filter_append, filter_fatalRecovery_invokeOrSleep,
        isInvokeOrSleep]
    · rfl
  · intro beh k m1 v h1 h2
    rw [runWithRetry,
      retryGo_step_fail beh none 1 1 k (pollSees_none _) m1 h1,
      retryGo_step_ok beh none 1 2 (k + 1) (pollSees_none _) v h2]
    constructor
    · simp [List.filter_append, filter_fatalRecovery_invokeOrSleep,
        isInvokeOrSleep]
    · rfl
  · intro beh k m1 m2 v h1 h2 h3
    rw [runWithRetry,
      retryGo_step_fail beh none 1 1 k (pollSees_none _) m1 h1,
      retryGo_step_fail beh none 0 2 (k + 1) (pollSees_none _) m2 h2,
      retryGo_step_ok beh none 0 3 (k + 2) (pollSees_none _) v h3]
    constructor
    · simp [List.filter_append, filter_fatalRecovery_invokeOrSleep,
        isInvokeOrSleep]
    · rfl

/-- **C3 witness**: the retry policy applied to an extraction failing on all
three attempts. -/
theorem c3_retry_policy_witness :
    (runWithRetry behAllFailX none 0).1.filter isInvokeOrSleep =
      [.invoke 1, .backoffSleep 2000, .invoke 2, .backoffSleep 5000,
       .invoke 3] ∧
    (runWithRetry behAllFailX none 0).2.1 = .error ⟨"Error", "x"⟩ :=
  c3_retry_policy.2.1 behAllFailX 0 "x" "x" "x" rfl rfl rfl

/-- **C6** (fatal-error recovery): when a failed attempt's error message
matches one of the fatal Playwright signatures, the recovery block closes
and recreates the browser before the next attempt — the trace shows the
close/recreate events (with a logged re-init failure when recreation fails)
between `invoke n` and `invoke (n+1)` for attempts 1 and 2, and after the
progress update of the final attempt before the error propagates; a
transient (non-fatal) failure produces no recovery events; a re-init
failure never prevents the next attempt from being invoked. -/
theorem c6_fatal_recovery :
    (∀ (beh : RetryBehavior) (n : Nat) (m : String),
      isLikelyPlaywrightFatal m = true →
      fatalRecoveryEvents beh n m =
        [.logFatalRestart n m, .closeBrowser n,
         .reinitBrowser n (!beh.reinitFails n)] ++
        (if beh.reinitFails n then [.logReinitFail n] else [])) ∧
    (∀ (beh : RetryBehavior) (n : Nat) (m : String),
      isLikelyPlaywrightFatal m = false → fatalRecoveryEvents beh n m = []) ∧
    (∀ (beh : RetryBehavior) (k : Nat) (m : String),
      beh.fnResult 1 = .error m →
      ∃ rest, (runWithRetry beh none k).1 =
        [REvent.checkCancel 1, .progressSet 1 .running, .invoke 1,
         .progressSet 1 .retrying] ++
        fatalRecoveryEvents beh 1 m ++ [.backoffSleep 2000] ++
        ([REvent.checkCancel 2, .progressSet 2 .running, .invoke 2] ++
          rest)) ∧
    (∀ (beh : RetryBehavior) (k : Nat) (m1 m2 : String),
      beh.fnResult 1 = .error m1 → beh.fnResult 2 = .error m2 →
      ∃ rest, (runWithRetry beh none k).1 =
        [REvent.checkCancel 1, .progressSet 1 .running, .invoke 1,
         .progressSet 1 .retrying] ++
        fatalRecoveryEvents beh 1 m1 ++ [.backoffSleep 2000] ++
        [REvent.checkCancel 2, .progressSet 2 .running, .invoke 2,
         .progressSet 2 .retrying] ++
        fatalRecoveryEvents beh 2 m2 ++ [.backoffSleep 5000] ++
        ([REvent.checkCancel 3, .progressSet 3 .running, .invoke 3] ++
          rest)) ∧
    (∀ (beh : RetryBehavior) (k : Nat) (m1 m2 m3 : String),
      beh.fnResult 1 = .error m1 → beh.fnResult 2 = .error m2 →
      beh.fnResult 3 = .error m3 →
      (runWithRetry beh none k).1 =
        [REvent.checkCancel 1, .progressSet 1 .running, .invoke 1,
         .progressSet 1 .retrying] ++
        fatalRecoveryEvents beh 1 m1 ++ [.backoffSleep 2000] ++
        [REvent.checkCancel 2, .progressSet 2 .running, .invoke 2,
         .progressSet 2 .retrying] ++
        fatalRecoveryEvents beh 2 m2 ++ [.backoffSleep 5000] ++
        [REvent.checkCancel 3, .progressSet 3 .running, .invoke 3,
         .progressSet 3 .failed] ++
        fatalRecoveryEvents beh 3 m3 ∧
      (runWithRetry beh none k).2.1 = .error ⟨"Error", m3⟩) := by
  refine ⟨?_, ?_, ?_, ?_, ?_⟩
  · intro beh n m hf
    simp [fatalRecoveryEvents, hf]
  · intro beh n m hf
    simp [fatalRecoveryEvents, hf]
  · intro beh k m h1
    rw [runWithRetry,
      retryGo_step_fail beh none 1 1 k (pollSees_none _) m h1]
    cases h2 : beh.fnResult 2 with
    | ok v =>
      rw [retryGo_step_ok beh none 1 2 (k + 1) (pollSees_none _) v h2]
      exact ⟨[], by simp⟩
    | error m2 =>
      rw [retryGo_step_fail beh none 0 2 (k + 1) (pollSees_none _) m2 h2]
      refine ⟨[REvent.progressSet 2 .retrying] ++
        fatalRecoveryEvents beh 2 m2 ++ [.backoffSleep 5000] ++
        (retryGo beh none 1 3 (k + 2)).1, by simp⟩
  · intro beh k m1 m2 h1 h2
    rw [runWithRetry,
      retryGo_step_fail beh none 1 1 k (pollSees_none _) m1 h1,
      retryGo_step_fail beh none 0 2 (k + 1) (pollSees_none _) m2 h2]
    cases h3 : beh.fnResult 3 with
    | ok v =>
      rw [retryGo_step_ok beh none 0 3 (k + 2) (pollSees_none _) v h3]
      exact ⟨[], by simp⟩
    | error m3 =>
      rw [retryGo_step_last_fail beh none 3 (k + 2) (pollSees_none _) m3 h3]
      refine ⟨[REvent.progressSet 3 .failed] ++
        fatalRecoveryEvents beh 3 m3, by simp⟩
  · intro beh k m1 m2 m3 h1 h2 h3
    rw [runWithRetry,
      retryGo_step_fail beh none 1 1 k (pollSees_none _) m1 h1,
      retryGo_step_fail beh none 0 2 (k + 1) (pollSees_none _) m2 h2,
      retryGo_step_last_fail beh none 3 (k + 2) (pollSees_none _) m3 h3]
    exact ⟨by simp, rfl⟩

/-- **C6 witness**: the recovery theorem applied to an extraction that fails
fatally on attempt 1 ("Target closed") with a failing browser re-launch,
then succeeds: the recovery (including the logged re-init failure) happens
between the two invokes. -/
theorem c6_fatal_recovery_witness :
    fatalRecoveryEvents behFatalThenOk 1 "Target closed" =
      [.logFatalRestart 1 "Target closed", .closeBrowser 1,
       .reinitBrowser 1 (!behFatalThenOk.reinitFails 1)] ++
      (if behFatalThenOk.reinitFails 1 then [.logReinitFail 1] else []) ∧
    ∃ rest, (runWithRetry behFatalThenOk none 0).1 =
      [REvent.checkCancel 1, .progressSet 1 .running, .invoke 1,
       .progressSet 1 .retrying] ++
      fatalRecoveryEvents behFatalThenOk 1 "Target closed" ++
      [.backoffSleep 2000] ++
      ([REvent.checkCancel 2, .progressSet 2 .running, .invoke 2] ++ rest) :=
  ⟨c6_fatal_recovery.1 behFatalThenOk 1 "Target closed" (by decide),
   c6_fatal_recovery.2.2.1 behFatalThenOk 0 "Target closed" rfl⟩

/-- **C2** (mutual exclusion): `runScrapingJob` rejects with `AlreadyRunning`
exactly when the in-memory running flag is set; and since the check-and-set
prefix runs with no `await` between check and set (atomically on the
single-threaded event loop), a race of two `start()` calls is a sequential
composition of two `checkAndSetRunning` steps, of which exactly one
succeeds and the other is rejected with `AlreadyRunning`. -/
theorem c2_mutual_exclusion :
    (∀ (env : JobEnv) (svc : SvcState), svc.isRunning = true →
      runScrapingJob env svc =
        { svc := svc, job := none, thrown := some alreadyRunningError,
          successCount := 0, errorCount := 0 }) ∧
    (∀ (env : JobEnv) (svc : SvcState),
      (runScrapingJob env svc).thrown = some alreadyRunningError ↔
        svc.isRunning = true) ∧
    (∀ svc : SvcState, svc.isRunning = false →
      ∃ svc2, checkAndSetRunning svc = .ok svc2 ∧ svc2.isRunning = true ∧
        checkAndSetRunning svc2 = .error alreadyRunningError) := by
  refine ⟨?_, ?_, ?_⟩
  · intro env svc h
    simp [runScrapingJob, h]
  · intro env svc
    constructor
    · intro h
      by_contra hrun
      rw [Bool.not_eq_true] at hrun
      by_cases hp : env.poolAvailable = true
      · simp only [runScrapingJob, hrun, Bool.false_eq_true, if_false, hp,
          Bool.not_true] at h
        split at h <;> simp at h
      · rw [Bool.not_eq_true] at hp
        simp only [runScrapingJob, hrun, Bool.false_eq_true, if_false, hp,
          Bool.not_false, if_true] at h
        exact absurd h (by decide)
    · intro h
      simp [runScrapingJob, h]
  · intro svc h
    refine ⟨{ svc with isRunning := true, cancelRequested := false },
      ?_, rfl, ?_⟩
    · simp [checkAndSetRunning, h]
    · simp [checkAndSetRunning]

/-- **C2 witness**: a start against a running service is rejected, and a
sequential race of two check-and-set steps from an idle service has exactly
one winner. -/
theorem c2_mutual_exclusion_witness :
    runScrapingJob envNoCompanies svcBusy =
      { svc := svcBusy, job := none, thrown := some alreadyRunningError,
        successCount := 0, errorCount := 0 } ∧
    ∃ svc2, checkAndSetRunning resetSvc = .ok svc2 ∧ svc2.isRunning = true ∧
      checkAndSetRunning svc2 = .error alreadyRunningError :=
  ⟨c2_mutual_exclusion.1 envNoCompanies svcBusy rfl,
   c2_mutual_exclusion.2.2 resetSvc rfl⟩

/-- **C10** (state reset): every `runScrapingJob` call that produced a job
row ended it in a terminal status (completed, failed or stopped), left the
in-memory service state fully reset (running flag cleared, no current job,
no cancellation request, no progress), and a subsequent start passes the
running-flag check instead of being rejected with `AlreadyRunning`. -/
theorem c10_state_reset (env : JobEnv) (svc : SvcState) (row : JobRow)
    (h : (runScrapingJob env svc).job = some row) :
    (row.status = .completed ∨ row.status = .failed ∨
      row.status = .stopped) ∧
    (runScrapingJob env svc).svc = resetSvc ∧
    checkAndSetRunning (runScrapingJob env svc).svc =
      .ok { resetSvc with isRunning := true } := by
  by_cases hr : svc.isRunning = true
  · simp [runScrapingJob, hr] at h
  · rw [Bool.not_eq_true] at hr
    by_cases hp : env.poolAvailable = true
    · cases htb : jobTryBody env with
      | ok acc =>
        simp only [runScrapingJob, hr, Bool.false_eq_true, if_false, hp,
          Bool.not_true, htb, Option.some.injEq] at h ⊢
        subst h
        exact ⟨Or.inl rfl, trivial, rfl⟩
      | error p =>
        obtain ⟨e, acc⟩ := p
        simp only [runScrapingJob, hr, Bool.false_eq_true, if_false, hp,
          Bool.not_true, htb, Option.some.injEq] at h ⊢
        subst h
        refine ⟨?_, trivial, rfl⟩
        by_cases hn : (e.name == "JobCancelledError") = true
        · exact Or.inr (Or.inr (by simp [catchJobRow, hn]))
        · rw [Bool.not_eq_true] at hn
          exact Or.inr (Or.inl (by simp [catchJobRow, hn]))
    · rw [Bool.not_eq_true] at hp
      simp only [runScrapingJob, hr, Bool.false_eq_true, if_false, hp,
        Bool.not_false, if_true] at h
      exact Option.noConfusion h

/-- **C10 witness**: the reset theorem applied to a completed run over an
empty company table. -/
theorem c10_state_reset_witness :
    ((JobRow.mk .completed true []).status = .completed ∨
      (JobRow.mk .completed true []).status = .failed ∨
      (JobRow.mk .completed true []).status = .stopped) ∧
    (runScrapingJob envNoCompanies resetSvc).svc = resetSvc ∧
    checkAndSetRunning (runScrapingJob envNoCompanies resetSvc).svc =
      .ok { resetSvc with isRunning := true } :=
  c10_state_reset envNoCompanies resetSvc ⟨.completed, true, []⟩ (by decide)

lemma runCompanyList_error_eq (env : JobEnv) :
    ∀ (l : List (Nat × Company)) (acc : JobAcc) (e : JsError),
      (runCompanyList env l acc).2 = some e → e = jobCancelledError := by
  intro l
  induction l with
  | nil =>
    intro acc e h
    simp [runCompanyList] at h
  | cons pr rest ih =>
    obtain ⟨ci, c⟩ := pr
    intro acc e h
    simp only [runCompanyList] at h
    by_cases hp : pollSees env.cancelAt (acc.pollCount + 1) = true
    · simp only [hp, if_true] at h
      exact (Option.some.injEq _ _ ▸ h).symm
    · rw [Bool.not_eq_true] at hp
      simp only [hp, Bool.false_eq_true, if_false] at h
      exact ih _ e h

/-- **C4 counterexample**: the claim says a job interrupted by `stop()`
always ends `stopped`, never `completed`.  In this run the cancellation
lands after the single company-loop checkpoint (poll 1 does not see it,
poll 2 does), so each of the four portal blocks observes it at the top of
its first retry attempt — but the per-portal catch swallows the
`JobCancelledError` as an ordinary portal failure (four portal-failure log
entries carrying the cancellation message, `errorCount = 4`), the company
loop finishes, and the job ends `completed`. -/
theorem c4_cancel_during_last_company_completes :
    runScrapingJob envCancelDuringLastCompany resetSvc =
      { svc := resetSvc,
        job := some { status := .completed, completedAt := true,
                      errorLog := cancelPortalFailLog },
        thrown := none, successCount := 0, errorCount := 4 } ∧
    pollSees envCancelDuringLastCompany.cancelAt 1 = false ∧
    pollSees envCancelDuringLastCompany.cancelAt 2 = true ∧
    JobStatus.completed ≠ JobStatus.stopped := by
  refine ⟨by decide, by decide, by decide, by decide⟩

/-- **C4** (amended): `stopJob` fails with `NoActiveJob` when no job is
running; otherwise it only sets the cancellation flag and appends a log
entry, leaving the running flag and in-flight work untouched.  A
cancellation observed at the top of ANY company iteration makes the job end
`stopped`: an error escaping the company loop is always the
`JobCancelledError` raised by a company-loop checkpoint, and whenever the
company loop escapes this way — from the first checkpoint or any later one
— the job row ends `stopped` (conjunct 3).  A cancellation already pending
before the first company iteration of a nonempty target set is one such
case (conjunct 4).  A cancellation observed only at retry-attempt
checkpoints is swallowed by the per-portal failure isolation (see the
counterexample), so no company checkpoint may fire and the job can end
`completed`. -/
theorem c4_cancellation_amended :
    (∀ (svc : SvcState) (log : List LogEntry),
      svc.isRunning = false ∨ svc.currentJob = none →
      stopJob svc log = .error noActiveJobError) ∧
    (∀ (svc : SvcState) (log : List LogEntry) (j : Nat),
      svc.isRunning = true → svc.currentJob = some j →
      stopJob svc log = .ok ({ svc with cancelRequested := true },
        log ++ [.stopRequested], "중지 요청 완료")) ∧
    (∀ (env : JobEnv) (svc : SvcState) (sel : List Company) (e : JsError),
      svc.isRunning = false → env.poolAvailable = true →
      env.launchFails = none →
      resolveCompanies env.companies env.companyFilter = .ok sel →
      (runCompanyList env sel.enum ⟨0, 0, 0, []⟩).2 = some e →
      e = jobCancelledError ∧
      ∃ row, (runScrapingJob env svc).job = some row ∧
        row.status = .stopped) ∧
    (∀ (env : JobEnv) (sel : List Company) (t : Nat),
      sel ≠ [] → env.cancelAt = some t → t ≤ 1 →
      (runCompanyList env sel.enum ⟨0, 0, 0, []⟩).2 =
        some jobCancelledError) := by
  refine ⟨?_, ?_, ?_, ?_⟩
  · intro svc log h
    rcases h with h | h <;> simp [stopJob, h]
  · intro svc log j h1 h2
    simp [stopJob, h1, h2]
  · intro env svc sel e h0 hp hl hres hrc
    have he : e = jobCancelledError :=
      runCompanyList_error_eq env sel.enum ⟨0, 0, 0, []⟩ e hrc
    subst he
    refine ⟨rfl, ?_⟩
    rcases hpair : runCompanyList env sel.enum ⟨0, 0, 0, []⟩ with ⟨accF, oe⟩
    rw [hpair] at hrc
    simp only at hrc
    subst hrc
    have htb : jobTryBody env = .error (jobCancelledError, accF) := by
      simp only [jobTryBody, hl, hres, hpair]
    refine ⟨catchJobRow accF.log jobCancelledError, ?_, rfl⟩
    simp [runScrapingJob, h0, hp, htb]
  · intro env sel t hne hc ht
    cases sel with
    | nil => exact absurd rfl hne
    | cons c rest =>
      have hpoll : pollSees env.cancelAt (0 + 1) = true := by
        rw [hc]
        simp [pollSees]
        omega
      rw [show (c :: rest).enum = (0, c) :: rest.enumFrom 1 from rfl]
      simp only [runCompanyList, hpoll, if_true]

/-- **C4 amended witness**: the amended theorem applied to a two-company run
with the stop landing during the first company's portals: the second
company's loop-top checkpoint observes the cancellation and the job ends
`stopped`; and to the pending-before-first-checkpoint condition of a
single-company run. -/
theorem c4_cancellation_amended_witness :
    (∃ row,
      (runScrapingJob envCancelMidRun resetSvc).job = some row ∧
      row.status = .stopped) ∧
    (runCompanyList envCancelBeforeFirstCompany
      envCancelBeforeFirstCompany.companies.enum ⟨0, 0, 0, []⟩).2 =
        some jobCancelledError :=
  ⟨(c4_cancellation_amended.2.2.1 envCancelMidRun resetSvc
      envCancelMidRun.companies jobCancelledError rfl rfl rfl rfl
      (by decide)).2,
   c4_cancellation_amended.2.2.2 envCancelBeforeFirstCompany
     envCancelBeforeFirstCompany.companies 1 (by decide) rfl (by decide)⟩

lemma retryGo_none_shift (beh : RetryBehavior) :
    ∀ fuel attempt k,
      retryGo beh none fuel attempt k =
        ((retryGo beh none fuel attempt 0).1,
         (retryGo beh none fuel attempt 0).2.1,
         k + (retryGo beh none fuel attempt 0).2.2) := by
  intro fuel
  induction fuel with
  | zero =>
    intro attempt k
    simp [retryGo]
  | succ fuel ih =>
    intro attempt k
    cases hfn : beh.fnResult attempt with
    | ok v =>
      rw [retryGo_step_ok beh none fuel attempt k (pollSees_none _) v hfn,
        retryGo_step_ok beh none fuel attempt 0 (pollSees_none _) v hfn]
    | error m =>
      cases fuel with
      | zero =>
        rw [retryGo_step_last_fail beh none attempt k (pollSees_none _) m hfn,
          retryGo_step_last_fail beh none attempt 0 (pollSees_none _) m hfn]
      | succ fuel =>
        rw [retryGo_step_fail beh none fuel attempt k (pollSees_none _) m hfn,
          retryGo_step_fail beh none fuel attempt 0 (pollSees_none _) m hfn,
          ih (attempt + 1) (k + 1), ih (attempt + 1) (0 + 1)]
        simp only [Prod.mk.injEq]
        refine ⟨trivial, trivial, by omega⟩

lemma runPortal_counts (env : JobEnv) (hc : env.cancelAt = none)
    (ci : Nat) (p : Portal) (label : String) (acc : JobAcc) :
    (runPortal env ci p label acc).successCount =
      acc.successCount + pairGain (env.behavior ci p) ∧
    (runPortal env ci p label acc).errorCount =
      acc.errorCount + pairErr (env.behavior ci p) ∧
    (runPortal env ci p label acc).log =
      acc.log ++ portalPairLog (env.behavior ci p) p label := by
  unfold runPortal runWithRetry
  rw [hc, retryGo_none_shift (env.behavior ci p) 3 1 acc.pollCount]
  cases ho : (retryGo (env.behavior ci p) none 3 1 0).2.1 with
  | ok v =>
    simp [ho, pairGain, pairErr, portalPairLog, pureOutcome]
  | error e =>
    simp [ho, pairGain, pairErr, portalPairLog, pureOutcome]

lemma runPortalList_counts (env : JobEnv) (hc : env.cancelAt = none)
    (ci : Nat) (label : String) :
    ∀ (ps : List Portal) (acc : JobAcc),
      (runPortalList env ci label ps acc).successCount =
        acc.successCount +
          (ps.map fun p => pairGain (env.behavior ci p)).sum ∧
      (runPortalList env ci label ps acc).errorCount =
        acc.errorCount +
          (ps.map fun p => pairErr (env.behavior ci p)).sum ∧
      (runPortalList env ci label ps acc).log =
        acc.log ++
          (ps.flatMap fun p => portalPairLog (env.behavior ci p) p label) := by
  intro ps
  induction ps with
  | nil =>
    intro acc
    simp [runPortalList]
  | cons p rest ih =>
    intro acc
    simp only [runPortalList]
    obtain ⟨hs0, he0, hl0⟩ := runPortal_counts env hc ci p label acc
    obtain ⟨hs, he, hl⟩ := ih (runPortal env ci p label acc)
    rw [hs, he, hl, hs0, he0, hl0]
    simp [Nat.add_assoc, List.append_assoc]

lemma runCompanyList_counts (env : JobEnv) (hc : env.cancelAt = none) :
    ∀ (l : List (Nat × Company)) (acc : JobAcc),
      (runCompanyList env l acc).2 = none ∧
      (runCompanyList env l acc).1.successCount =
        acc.successCount + companiesGain env l ∧
      (runCompanyList env l acc).1.errorCount =
        acc.errorCount + companiesErr env l ∧
      (runCompanyList env l acc).1.log = acc.log ++ companiesLog env l := by
  intro l
  induction l with
  | nil =>
    intro acc
    simp [runCompanyList, companiesGain, companiesErr, companiesLog]
  | cons pr rest ih =>
    obtain ⟨ci, c⟩ := pr
    intro acc
    simp only [runCompanyList, hc, pollSees_none, Bool.false_eq_true,
      if_false]
    obtain ⟨hs0, he0, hl0⟩ := runPortalList_counts env hc ci
      (companyLabel c) (portalsFor c) { acc with pollCount := acc.pollCount + 1 }
    obtain ⟨hn, hs, he, hl⟩ := ih
      (runPortalList env ci (companyLabel c) (portalsFor c)
        { acc with pollCount := acc.pollCount + 1 })
    refine ⟨hn, ?_, ?_, ?_⟩
    · rw [hs, hs0]
      simp [companiesGain, Nat.add_assoc]
    · rw [he, he0]
      simp [companiesErr, Nat.add_assoc]
    · rw [hl, hl0]
      simp [companiesLog, List.append_assoc]

/-- **C7** (partial failure isolation): in every cancellation-free run with
an available pool, a working browser launch and a resolved target set, the
job ends `completed`; its `successCount` is the sum of the per-pair gains
and its `errorCount` the sum of the per-pair error contributions over all
(company, portal) pairs in listing order, and the job log is the
concatenation of the per-pair logs — a pair whose extraction ultimately
fails contributes gain 0, exactly one error and a portal-failure log entry,
while every other pair contributes its own saved-review count, so no single
failing pair aborts the job or the other pairs. -/
theorem c7_partial_failure_isolation (env : JobEnv) (svc : SvcState)
    (sel : List Company)
    (h0 : svc.isRunning = false) (hp : env.poolAvailable = true)
    (hl : env.launchFails = none) (hc : env.cancelAt = none)
    (hres : resolveCompanies env.companies env.companyFilter = .ok sel) :
    (∃ row, (runScrapingJob env svc).job = some row ∧
      row.status = .completed ∧
      (runScrapingJob env svc).successCount = companiesGain env sel.enum ∧
      (runScrapingJob env svc).errorCount = companiesErr env sel.enum ∧
      row.errorLog = companiesLog env sel.enum) ∧
    (∀ (beh : RetryBehavior) (v : Nat), pureOutcome beh = .ok v →
      pairGain beh = v ∧ pairErr beh = 0) ∧
    (∀ (beh : RetryBehavior) (e : JsError), pureOutcome beh = .error e →
      pairGain beh = 0 ∧ pairErr beh = 1 ∧
      ∀ (p : Portal) (label : String), ∃ pre,
        portalPairLog beh p label = pre ++ [.portalFail p label e.message]) := by
  refine ⟨?_, ?_, ?_⟩
  · obtain ⟨hn, hs, he, hlog⟩ :=
      runCompanyList_counts env hc sel.enum ⟨0, 0, 0, []⟩
    have htb : jobTryBody env =
        .ok (runCompanyList env sel.enum ⟨0, 0, 0, []⟩).1 := by
      simp only [jobTryBody, hl, hres]
      rcases hrc : runCompanyList env sel.enum ⟨0, 0, 0, []⟩ with ⟨accF, oe⟩
      rw [hrc] at hn
      simp only at hn
      subst hn
      rfl
    refine ⟨⟨.completed, true,
      (runCompanyList env sel.enum ⟨0, 0, 0, []⟩).1.log⟩, ?_, rfl, ?_, ?_, ?_⟩
    · simp [runScrapingJob, h0, hp, htb]
    · simp only [runScrapingJob, h0, Bool.false_eq_true, if_false, hp,
        Bool.not_true, htb]
      simpa using hs
    · simp only [runScrapingJob, h0, Bool.false_eq_true, if_false, hp,
        Bool.not_true, htb]
      simpa using he
    · simpa using hlog
  · intro beh v ho
    simp [pairGain, pairErr, ho]
  · intro beh e ho
    refine ⟨by simp [pairGain, ho], by simp [pairErr, ho], ?_⟩
    intro p label
    exact ⟨retryLogEntries p label (retryGo beh none 3 1 0).1,
      by simp [portalPairLog, ho]⟩

/-- **C7 witness**: the isolation theorem applied to a two-company run in
which the single pair (company 0, kakao) always fails and every other pair
saves 2 reviews: the job completes with 14 successes, 1 error and one
portal-failure log entry. -/
theorem c7_partial_failure_isolation_witness :
    (∃ row,
      (runScrapingJob envOneFailingPair resetSvc).job = some row ∧
      row.status = .completed ∧
      (runScrapingJob envOneFailingPair resetSvc).successCount =
        companiesGain envOneFailingPair envOneFailingPair.companies.enum ∧
      (runScrapingJob envOneFailingPair resetSvc).errorCount =
        companiesErr envOneFailingPair envOneFailingPair.companies.enum ∧
      row.errorLog =
        companiesLog envOneFailingPair envOneFailingPair.companies.enum) ∧
    companiesGain envOneFailingPair envOneFailingPair.companies.enum = 14 ∧
    companiesErr envOneFailingPair envOneFailingPair.companies.enum = 1 :=
  ⟨(c7_partial_failure_isolation envOneFailingPair resetSvc
      envOneFailingPair.companies rfl rfl rfl rfl rfl).1,
   by decide, by decide⟩

end TripReview
